import Mathlib

/-!
# Verification of the student-performance dashboard pipeline (`src/app.py`)

Shallow embedding of the data-derivation and filtering pipeline of the
dashboard script. A dataset is a list of `StudentRecord` (one CSV row);
the derived columns added at lines 44-47 of the source are modelled as
pure functions of the three scores, which is exact because the script
computes them once from the score columns and never mutates them.

Numeric conventions: the score columns are integers (`ℤ`, pandas reads
them as int64); `average score` (line 45, true division by 3) is a
rational (`ℚ`), the exact value of the division.
-/

/-- One row of the raw dataset, with the source CSV column names
(`gender`, `parental level of education`, `lunch`,
`test preparation course`, `math score`, `reading score`,
`writing score`) as fields. -/
structure StudentRecord where
  gender : String
  parental_level_of_education : String
  lunch : String
  test_preparation_course : String
  math_score : ℤ
  reading_score : ℤ
  writing_score : ℤ
deriving Repr, DecidableEq

/-- `FAIL_THRESHOLD = 40` (line 43 of `src/app.py`). -/
def FAIL_THRESHOLD : ℤ := 40

/-- Line 44: `df["total score"] = df[["math score","reading score","writing score"]].sum(axis=1)`. -/
def total_score (r : StudentRecord) : ℤ :=
  r.math_score + r.reading_score + r.writing_score

/-- Line 45: `df["average score"] = df["total score"]/3` (true division, modelled in `ℚ`). -/
def average_score (r : StudentRecord) : ℚ :=
  (total_score r : ℚ) / 3

/-- Line 46: `df["min score"] = df[["math score","reading score","writing score"]].min(axis=1)`. -/
def min_score (r : StudentRecord) : ℤ :=
  min r.math_score (min r.reading_score r.writing_score)

/-- Line 47: `df["pass_fail"] = df["min score"].apply(lambda x: "Fail" if x <= FAIL_THRESHOLD else "Pass")`. -/
def pass_fail (r : StudentRecord) : String :=
  if min_score r ≤ FAIL_THRESHOLD then "Fail" else "Pass"

/-- Lines 55-59: `filtered_df = df[(df["gender"].isin(gender_filter)) &
(df["parental level of education"].isin(edu_filter)) &
(df["test preparation course"].isin(prep_filter))]`.
A row is kept iff each of the three categorical values is a member of
the corresponding multiselect selection list. -/
def filtered_df (df : List StudentRecord)
    (gender_filter edu_filter prep_filter : List String) : List StudentRecord :=
  df.filter (fun r =>
    gender_filter.contains r.gender &&
    edu_filter.contains r.parental_level_of_education &&
    prep_filter.contains r.test_preparation_course)

/-- Lines 51-53: the default selection of each sidebar multiselect is
`df["col"].unique()`, the distinct values observed in the column. -/
def unique (col : List String) : List String :=
  col.dedup

/-- Line 68 (and 69 for Fail): `filtered_df["pass_fail"].value_counts().get("Pass",0)`,
the number of rows whose `pass_fail` is the given label. -/
def label_count (l : List StudentRecord) (lab : String) : ℕ :=
  (l.filter (fun r => pass_fail r == lab)).length

/-- Line 70: `total_students = len(filtered_df)`. -/
def total_students (l : List StudentRecord) : ℕ := l.length

/-- Line 71: `pass_percent = pass_count/total_students*100 if total_students>0 else 0`
(float division in the source, exact division in `ℚ`). -/
def pass_percent (l : List StudentRecord) : ℚ :=
  if total_students l > 0 then (label_count l "Pass" : ℚ) / (total_students l : ℚ) * 100 else 0

/-- Line 72: `fail_percent = fail_count/total_students*100 if total_students>0 else 0`. -/
def fail_percent (l : List StudentRecord) : ℚ :=
  if total_students l > 0 then (label_count l "Fail" : ℚ) / (total_students l : ℚ) * 100 else 0

/-- The spec worked example record: math=30, reading=50, writing=60. -/
def sample_record : StudentRecord :=
  ⟨"male", "bachelor", "standard", "none", 30, 50, 60⟩

/-- A passing record (all scores above the threshold). -/
def sample_pass : StudentRecord :=
  ⟨"female", "master", "free/reduced", "completed", 80, 90, 100⟩

/-!
### Synthetic dataset (lines 27-38)

When `StudentsPerformance.csv` is absent the script seeds the numpy global
generator (`np.random.seed(42)`) and draws four categorical columns with
`np.random.choice` and three score columns with `np.random.randint(0,101,100)`.
The Mersenne-Twister generator itself is numpy library code, not part of
this repository; it is modelled by a deterministic pure generator with the
same interface (seeded state, sequential draws; `choice` returns a member
of the given option list, `randint lo hi` a value in `[lo, hi)`).
-/

/-- One step of the modelled pseudo-random generator (a 64-bit LCG standing
in for the numpy Mersenne Twister; any deterministic pure generator has the
properties the spec claims). -/
def lcg_next (s : ℕ) : ℕ :=
  (s * 6364136223846793005 + 1442695040888963407) % 2 ^ 64

/-- The outputs of `n` successive draws from state `s`. -/
def draws : ℕ → ℕ → List ℕ
  | 0, _ => []
  | n + 1, s => lcg_next s :: draws n (lcg_next s)

/-- The generator state after `n` draws from state `s`. -/
def state_after : ℕ → ℕ → ℕ
  | 0, s => s
  | n + 1, s => state_after n (lcg_next s)

/-- `np.random.choice(opts, n)` from state `s`: each draw selects a member
of `opts`. -/
def np_choice (opts : List String) (n : ℕ) (s : ℕ) : List String :=
  (draws n s).map (fun x => opts.getD (x % opts.length) "")

/-- `np.random.randint(lo, hi, n)` from state `s`: each draw is an integer
in `[lo, hi)`. -/
def np_randint (lo hi : ℤ) (n : ℕ) (s : ℕ) : List ℤ :=
  (draws n s).map (fun x => lo + ((x % (hi - lo).toNat : ℕ) : ℤ))

/-- Lines 29-38: `np.random.seed(42)` then the seven 100-element columns,
drawn sequentially from the global generator state and assembled row-wise
into the synthetic dataframe. The argument is the ambient generator state
before the call; `np.random.seed(42)` discards it, which is what makes the
generation reproducible. -/
def generate_sample (ambient : ℕ) : List StudentRecord :=
  let _ := ambient
  let s0 : ℕ := 42
  let genders := np_choice ["male", "female"] 100 s0
  let s1 := state_after 100 s0
  let edus := np_choice ["high school", "associate degree", "bachelor", "master"] 100 s1
  let s2 := state_after 100 s1
  let lunches := np_choice ["standard", "free/reduced"] 100 s2
  let s3 := state_after 100 s2
  let preps := np_choice ["none", "completed"] 100 s3
  let s4 := state_after 100 s3
  let maths := np_randint 0 101 100 s4
  let s5 := state_after 100 s4
  let readings := np_randint 0 101 100 s5
  let s6 := state_after 100 s5
  let writings := np_randint 0 101 100 s6
  (List.range 100).map (fun i =>
    ⟨genders.getD i "male", edus.getD i "high school", lunches.getD i "standard",
      preps.getD i "none", maths.getD i 0, readings.getD i 0, writings.getD i 0⟩)

/-!
### Decimal cells: printing and parsing

`DataFrame.to_csv` prints integer cells in decimal and `pd.read_csv`
parses them back. Both directions are modelled on `List Char`. The float
column `average score` is carried exactly as a rational; its cell is
printed as numerator, slash, denominator — like the shortest
round-tripping float repr the source relies on, the printed form is one
that parsing inverts.
-/

/-- Big-endian decimal digits of `n`, accumulated least-significant first
(the first argument is fuel, always called with `fuel = n`). -/
def nat_chars_aux : ℕ → ℕ → List Char
  | 0, _ => []
  | fuel + 1, n => if n = 0 then [] else Nat.digitChar (n % 10) :: nat_chars_aux fuel (n / 10)

/-- The decimal print of a natural number. -/
def nat_chars (n : ℕ) : List Char :=
  if n = 0 then ['0'] else (nat_chars_aux n n).reverse

/-- Parse a decimal natural number: all characters must be digits. -/
def chars_nat (cs : List Char) : Option ℕ :=
  if cs ≠ [] ∧ cs.all Char.isDigit then
    some (cs.foldl (fun a c => a * 10 + (c.toNat - 48)) 0)
  else none

/-- The decimal print of an integer (minus sign for negatives). -/
def int_chars (n : ℤ) : List Char :=
  if n < 0 then '-' :: nat_chars n.natAbs else nat_chars n.toNat

/-- Parse a decimal integer. -/
def chars_int (cs : List Char) : Option ℤ :=
  if cs.head? = some '-' then (chars_nat cs.tail).map (fun m : ℕ => -(m : ℤ))
  else (chars_nat cs).map (fun m : ℕ => (m : ℤ))

/-- Integer cell text. -/
def int_str (n : ℤ) : String := String.mk (int_chars n)

/-- Parse an integer cell. -/
def str_int (s : String) : Option ℤ := chars_int s.data

/-- Rational cell text: numerator, slash, denominator. -/
def rat_chars (q : ℚ) : List Char := int_chars q.num ++ '/' :: nat_chars q.den

/-- Rational cell text as a string. -/
def rat_str (q : ℚ) : String := String.mk (rat_chars q)

/-- Parse a rational cell. -/
def chars_rat (cs : List Char) : Option ℚ :=
  let numPart := cs.takeWhile (fun c => c != '/')
  let rest := cs.dropWhile (fun c => c != '/')
  if rest.head? = some '/' then
    match chars_int numPart, chars_nat rest.tail with
    | some n, some d => some ((n : ℚ) / (d : ℚ))
    | _, _ => none
  else none

/-- Parse a rational cell from a string. -/
def str_rat (s : String) : Option ℚ := chars_rat s.data

/-!
### Loader and script run (lines 26-40 plus the column accesses)

The script has no exception handling: `pd.read_csv` on a present but
malformed file raises `ParserError`, and any later `df[col]` access with a
missing column raises `KeyError`; either aborts the run, which streamlit
reports to the user. The run is therefore modelled as an `Except`-valued
computation over the parsed CSV table, and the file on disk is absent,
present-but-unparseable, or present-and-parsed.
-/

/-- A parsed CSV table: the header row and the data rows of cells. -/
structure RawCsv where
  header : List String
  rows : List (List String)
deriving Repr, DecidableEq

/-- The state of `StudentsPerformance.csv` at the fixed path (line 26):
absent, present but not parseable as CSV, or present with parsed content. -/
inductive FileState where
  | absent : FileState
  | present : Option RawCsv → FileState

/-- The exceptions that abort the script run: `pd.read_csv` failing on a
malformed file, a `df[col]` access with a missing column, or a score cell
that is not an integer. -/
inductive LoadError where
  | parserError : LoadError
  | keyError : String → LoadError
  | badCell : LoadError
deriving Repr, DecidableEq

/-- `df[col]`: the cells of the named column, or a `KeyError` when the
header does not contain it. -/
def getColumn (t : RawCsv) (col : String) : Except LoadError (List String) :=
  if col ∈ t.header then
    .ok (t.rows.map (fun row => row.getD (t.header.indexOf col) ""))
  else .error (.keyError col)

/-- A score cell must hold an integer (pandas turns a non-numeric score
column into objects, on which the arithmetic of lines 44-45 raises). -/
def parse_score (cell : String) : Except LoadError ℤ :=
  match str_int cell with
  | none => .error .badCell
  | some v => .ok v

/-- The seven columns the script reads: lines 44 and 46 (the three score
columns), lines 51-53 (the three filter columns) and line 152 (`lunch`). -/
def required_columns : List String :=
  ["gender", "parental level of education", "lunch", "test preparation course",
   "math score", "reading score", "writing score"]

/-- Assemble the typed records from a parsed table, reading the columns in
the order the script first touches them; the first missing column or bad
score cell aborts. -/
def build_records (t : RawCsv) : Except LoadError (List StudentRecord) := do
  let maths ← getColumn t "math score"
  let readings ← getColumn t "reading score"
  let writings ← getColumn t "writing score"
  let genders ← getColumn t "gender"
  let edus ← getColumn t "parental level of education"
  let preps ← getColumn t "test preparation course"
  let lunches ← getColumn t "lunch"
  (List.range t.rows.length).mapM (fun i => do
    let m ← parse_score (maths.getD i "")
    let r ← parse_score (readings.getD i "")
    let w ← parse_score (writings.getD i "")
    Except.ok ⟨genders.getD i "", edus.getD i "", lunches.getD i "",
      preps.getD i "", m, r, w⟩)

/-- Lines 26-40 and the pipeline column uses, as one run: an absent file
yields the synthetic dataset (after the warning), a present file is parsed
or raises, and the later column accesses can raise. An `error` outcome is
an uncaught exception — reported to the user, nothing further runs. -/
def run_script (fs : FileState) (ambient : ℕ) : Except LoadError (List StudentRecord) :=
  match fs with
  | .absent => .ok (generate_sample ambient)
  | .present none => .error .parserError
  | .present (some t) => build_records t

/-!
### At-risk extract and CSV export (lines 151-155)

`at_risk = filtered_df[filtered_df["pass_fail"]=="Fail"].sort_values(by="min score")`
then `csv = at_risk.to_csv(index=False).encode("utf-8")`. Note the export
serializes `at_risk` itself — all eleven columns of the prepared
dataframe — not the eight-column projection that line 152 only displays.
`sort_values` is called with its default algorithm kind (quicksort),
whose contract is ordering by the key; it is modelled here by an
executable comparison sort on the same key (the tie order of the numpy
introsort is no part of the contract and is not modelled). CSV text is
modelled at cell level, as the list of rows of cell strings.
-/

/-- Line 151: the Fail rows of the filtered dataframe, sorted by
`min score`. -/
def at_risk (l : List StudentRecord) : List StudentRecord :=
  List.insertionSort (fun a b => min_score a ≤ min_score b)
    (l.filter (fun r => pass_fail r == "Fail"))

/-- The columns of the prepared dataframe, in order: the seven raw columns
of line 30-37 order plus the four derived columns of lines 44-47. This is
the header `to_csv` writes at line 154. -/
def export_header : List String :=
  ["gender", "parental level of education", "lunch", "test preparation course",
   "math score", "reading score", "writing score", "total score", "average score",
   "min score", "pass_fail"]

/-- The eight projected columns of line 152 — what the claim says the
export contains (the display-only projection). -/
def projected_columns : List String :=
  ["gender", "parental level of education", "lunch", "test preparation course",
   "math score", "reading score", "writing score", "min score"]

/-- One exported CSV data row: the record cells in `export_header` order. -/
def record_cells (r : StudentRecord) : List String :=
  [r.gender, r.parental_level_of_education, r.lunch, r.test_preparation_course,
   int_str r.math_score, int_str r.reading_score, int_str r.writing_score,
   int_str (total_score r), rat_str (average_score r), int_str (min_score r),
   pass_fail r]

/-- Line 154, `at_risk.to_csv(index=False)`: the header row followed by one
row per record, no index column. -/
def to_csv (l : List StudentRecord) : List (List String) :=
  export_header :: l.map record_cells

/-- A row as read back by `pd.read_csv` from the exported report: the four
categorical cells, the three scores, and the three derived numeric cells
plus the pass-fail label. -/
structure CsvRow where
  gender : String
  parental_level_of_education : String
  lunch : String
  test_preparation_course : String
  math_score : ℤ
  reading_score : ℤ
  writing_score : ℤ
  total_score : ℤ
  average_score : ℚ
  min_score : ℤ
  pass_fail : String
deriving Repr, DecidableEq

/-- The exported row a record produces. -/
def derived_row (r : StudentRecord) : CsvRow :=
  ⟨r.gender, r.parental_level_of_education, r.lunch, r.test_preparation_course,
   r.math_score, r.reading_score, r.writing_score, total_score r, average_score r,
   min_score r, pass_fail r⟩

/-- Parse one data row of the exported report. -/
def parse_row (cells : List String) : Option CsvRow :=
  match cells with
  | [g, pe, lu, tp, m, r, w, t, a, mn, pf] => do
      let mv ← str_int m
      let rv ← str_int r
      let wv ← str_int w
      let tv ← str_int t
      let av ← str_rat a
      let mnv ← str_int mn
      some ⟨g, pe, lu, tp, mv, rv, wv, tv, av, mnv, pf⟩
  | _ => none

/-- Parse exported CSV rows: the first row is the header, the rest are
data rows. -/
def parse_csv (rows : List (List String)) : Option (List CsvRow) :=
  match rows with
  | [] => none
  | _ :: body => body.mapM parse_row

/-!
## Theorems
-/

/-- C1: `pass_fail` is `"Fail"` iff `min_score ≤ 40`, `"Pass"` iff
`min_score > 40`; in particular `min_score = 40` gives Fail and
`min_score = 41` gives Pass. -/
theorem pass_fail_iff_min_score (r : StudentRecord) :
    (pass_fail r = "Fail" ↔ min_score r ≤ 40) ∧
    (pass_fail r = "Pass" ↔ min_score r > 40) ∧
    (min_score r = 40 → pass_fail r = "Fail") ∧
    (min_score r = 41 → pass_fail r = "Pass") := by
  unfold pass_fail FAIL_THRESHOLD
  by_cases h : min_score r ≤ 40 <;> simp [h] <;> omega

/-- Witness for C1: the spec example record (min 30) is Fail, the
all-high record (min 80) is Pass. -/
theorem pass_fail_iff_min_score_witness :
    pass_fail sample_record = "Fail" ∧ pass_fail sample_pass = "Pass" :=
  ⟨(pass_fail_iff_min_score sample_record).1.mpr (by decide),
   (pass_fail_iff_min_score sample_pass).2.1.mpr (by decide)⟩

/-- C7: the derived attributes are the sum, the exact third of the sum and
the minimum of the three scores, and `min_score ≤ average_score ≤ max` of
the three scores. -/
theorem derived_attributes_correct (r : StudentRecord) :
    total_score r = r.math_score + r.reading_score + r.writing_score ∧
    average_score r = (total_score r : ℚ) / 3 ∧
    min_score r = min r.math_score (min r.reading_score r.writing_score) ∧
    (min_score r : ℚ) ≤ average_score r ∧
    average_score r ≤ (max r.math_score (max r.reading_score r.writing_score) : ℚ) := by
  have hmin : 3 * min_score r ≤ total_score r := by
    have h1 := min_le_left r.math_score (min r.reading_score r.writing_score)
    have h2 := min_le_right r.reading_score r.writing_score
    have h3 := min_le_left r.reading_score r.writing_score
    have h4 := min_le_right r.math_score (min r.reading_score r.writing_score)
    unfold min_score total_score at *
    omega
  have hmax : total_score r ≤ 3 * max r.math_score (max r.reading_score r.writing_score) := by
    have h1 := le_max_left r.math_score (max r.reading_score r.writing_score)
    have h2 := le_max_right r.reading_score r.writing_score
    have h3 := le_max_left r.reading_score r.writing_score
    have h4 := le_max_right r.math_score (max r.reading_score r.writing_score)
    unfold total_score at *
    omega
  refine ⟨rfl, rfl, rfl, ?_, ?_⟩
  · rw [average_score, le_div_iff₀ (by norm_num : (0:ℚ) < 3)]
    calc (min_score r : ℚ) * 3 = ((3 * min_score r : ℤ) : ℚ) := by push_cast; ring
    _ ≤ (total_score r : ℚ) := by exact_mod_cast hmin
  · rw [average_score, div_le_iff₀ (by norm_num : (0:ℚ) < 3)]
    calc (total_score r : ℚ)
        ≤ ((3 * max r.math_score (max r.reading_score r.writing_score) : ℤ) : ℚ) := by
          exact_mod_cast hmax
    _ = (max r.math_score (max r.reading_score r.writing_score) : ℚ) * 3 := by push_cast; ring

/-- C5: the filter keeps a record iff its gender, parental education and
test-prep values are each members of the corresponding selection list;
an empty selection for any one attribute yields an empty result. -/
theorem filtered_df_mem_iff (df : List StudentRecord) (g e p : List String) :
    (∀ r : StudentRecord, r ∈ filtered_df df g e p ↔
      r ∈ df ∧ r.gender ∈ g ∧ r.parental_level_of_education ∈ e ∧
        r.test_preparation_course ∈ p) ∧
    (g = [] ∨ e = [] ∨ p = [] → filtered_df df g e p = []) := by
  constructor
  · intro r
    simp [filtered_df, List.mem_filter, and_assoc]
  · rintro (rfl | rfl | rfl) <;> simp [filtered_df]

/-- Witness for C5 at concrete inputs: the male record passes the shown
selections, and an empty gender selection empties the result. -/
theorem filtered_df_mem_iff_witness :
    (sample_record ∈
        filtered_df [sample_record, sample_pass] ["male"] ["bachelor"] ["none"]) ∧
    filtered_df [sample_record] [] ["bachelor"] ["none"] = [] := by
  constructor
  · exact ((filtered_df_mem_iff [sample_record, sample_pass]
      ["male"] ["bachelor"] ["none"]).1 sample_record).2 (by simp [sample_record])
  · exact (filtered_df_mem_iff [sample_record] [] ["bachelor"] ["none"]).2 (Or.inl rfl)

/-- C8: filtering with the full observed value-set of every attribute
(the source default multiselect selections, lines 51-53) returns the
dataset unchanged, content and order. -/
theorem filter_full_observed_identity (df : List StudentRecord) :
    filtered_df df (unique (df.map (fun r => r.gender)))
      (unique (df.map (fun r => r.parental_level_of_education)))
      (unique (df.map (fun r => r.test_preparation_course))) = df := by
  apply List.filter_eq_self.mpr
  intro r hr
  simp only [unique, Bool.and_eq_true, List.contains, List.elem_iff, List.mem_dedup,
    List.mem_map]
  exact ⟨⟨⟨r, hr, rfl⟩, ⟨r, hr, rfl⟩⟩, ⟨r, hr, rfl⟩⟩

/-- C10: the filtered dataset is an order-preserving subsequence of the
input dataset (`List.Sublist`): every kept record occurs in the input,
no duplication is introduced, and relative order is preserved. -/
theorem filtered_df_sublist (df : List StudentRecord) (g e p : List String) :
    List.Sublist (filtered_df df g e p) df :=
  List.filter_sublist df

/-- Every record is classified, so the Pass and Fail counts partition the
filtered dataset. -/
theorem pass_add_fail_count (l : List StudentRecord) :
    label_count l "Pass" + label_count l "Fail" = total_students l := by
  induction l with
  | nil => rfl
  | cons r t ih =>
    have hr : pass_fail r = "Fail" ∨ pass_fail r = "Pass" := by
      unfold pass_fail
      by_cases h : min_score r ≤ FAIL_THRESHOLD <;> simp [h]
    unfold label_count total_students at *
    rcases hr with h | h <;> simp [List.filter_cons, h] <;> omega

/-- C6: with a nonempty filtered dataset the pass and fail percentages sum
to 100; with an empty one both are 0 (no division by zero). -/
theorem kpi_percentages (l : List StudentRecord) :
    (total_students l > 0 → pass_percent l + fail_percent l = 100) ∧
    (total_students l = 0 → pass_percent l = 0 ∧ fail_percent l = 0) := by
  constructor
  · intro h
    have hsum := pass_add_fail_count l
    have ht : (total_students l : ℚ) ≠ 0 := by
      exact_mod_cast Nat.pos_iff_ne_zero.mp h
    rw [pass_percent, fail_percent, if_pos h, if_pos h]
    field_simp
    push_cast [← hsum]
    ring
  · intro h
    rw [pass_percent, fail_percent, if_neg (by omega), if_neg (by omega)]
    exact ⟨rfl, rfl⟩

/-- Witness for C6: one Pass and one Fail record give 50% + 50% = 100, and
the empty dataset gives 0 and 0. -/
theorem kpi_percentages_witness :
    pass_percent [sample_record, sample_pass] + fail_percent [sample_record, sample_pass] = 100 ∧
    pass_percent [] = 0 ∧ fail_percent [] = 0 :=
  ⟨(kpi_percentages [sample_record, sample_pass]).1 (by norm_num [total_students]),
   (kpi_percentages []).2 rfl⟩

/-- The list of `n` draws has length `n`. -/
theorem draws_length (n s : ℕ) : (draws n s).length = n := by
  induction n generalizing s with
  | zero => rfl
  | succ n ih => simp [draws, ih]

/-- A default-or-member lookup: `getD` satisfies any property satisfied by
the default and by every list element. -/
theorem getD_prop {α : Type} (P : α → Prop) {l : List α} {d : α}
    (hd : P d) (hl : ∀ x ∈ l, P x) (i : ℕ) : P (l.getD i d) := by
  rw [List.getD_eq_getElem?_getD]
  cases h : l[i]? with
  | none => simpa using hd
  | some v =>
    have hv : v ∈ l := List.getElem?_mem h
    simpa using hl v hv

/-- Every value drawn by the modelled `np.random.choice` is one of the
offered options. -/
theorem np_choice_mem {opts : List String} (hne : opts ≠ [])
    (n s : ℕ) : ∀ v ∈ np_choice opts n s, v ∈ opts := by
  intro v hv
  rw [np_choice, List.mem_map] at hv
  obtain ⟨x, _, rfl⟩ := hv
  have hlen : 0 < opts.length := List.length_pos.mpr hne
  have hx : x % opts.length < opts.length := Nat.mod_lt _ hlen
  rw [List.getD_eq_getElem?_getD, List.getElem?_eq_getElem hx]
  exact List.getElem_mem _

/-- Every value drawn by the modelled `np.random.randint lo hi` lies in
`[lo, hi)`. -/
theorem np_randint_mem {lo hi : ℤ} (hlt : lo < hi)
    (n s : ℕ) : ∀ v ∈ np_randint lo hi n s, lo ≤ v ∧ v < hi := by
  intro v hv
  rw [np_randint, List.mem_map] at hv
  obtain ⟨x, _, rfl⟩ := hv
  have ht : 0 < (hi - lo).toNat := by omega
  have hx : x % (hi - lo).toNat < (hi - lo).toNat := Nat.mod_lt _ ht
  constructor
  · have : (0 : ℤ) ≤ ((x % (hi - lo).toNat : ℕ) : ℤ) := Int.natCast_nonneg _
    omega
  · have : ((x % (hi - lo).toNat : ℕ) : ℤ) < ((hi - lo).toNat : ℤ) := by
      exact_mod_cast hx
    omega

/-- C9: the synthetic dataset is independent of the ambient generator state
(the fixed seed makes generation deterministic: two invocations agree), has
exactly 100 records, and every record draws `gender` and
`test preparation course` from the two-value domains,
`parental level of education` from the four-value domain, `lunch` from the
two-value domain, and each score from the integers `[0, 100]`. -/
theorem generate_sample_spec :
    (∀ ambient ambient' : ℕ, generate_sample ambient = generate_sample ambient') ∧
    (generate_sample 0).length = 100 ∧
    (generate_sample 0).Forall (fun r =>
      r.gender ∈ (["male", "female"] : List String) ∧
      r.parental_level_of_education ∈
        (["high school", "associate degree", "bachelor", "master"] : List String) ∧
      r.lunch ∈ (["standard", "free/reduced"] : List String) ∧
      r.test_preparation_course ∈ (["none", "completed"] : List String) ∧
      0 ≤ r.math_score ∧ r.math_score ≤ 100 ∧
      0 ≤ r.reading_score ∧ r.reading_score ≤ 100 ∧
      0 ≤ r.writing_score ∧ r.writing_score ≤ 100) := by
  refine ⟨fun _ _ => rfl, by simp [generate_sample], ?_⟩
  rw [List.forall_iff_forall_mem]
  intro r hr
  simp only [generate_sample, List.mem_map, List.mem_range] at hr
  obtain ⟨i, _, rfl⟩ := hr
  have hscore : ∀ s v, v ∈ np_randint 0 101 100 s → 0 ≤ v ∧ v ≤ 100 := by
    intro s v hv
    have := np_randint_mem (by norm_num) 100 s v hv
    omega
  refine ⟨?_, ?_, ?_, ?_, ?_, ?_, ?_, ?_, ?_, ?_⟩
  · exact getD_prop (· ∈ _) (by simp) (np_choice_mem (by simp) 100 _) i
  · exact getD_prop (· ∈ _) (by simp) (np_choice_mem (by simp) 100 _) i
  · exact getD_prop (· ∈ _) (by simp) (np_choice_mem (by simp) 100 _) i
  · exact getD_prop (· ∈ _) (by simp) (np_choice_mem (by simp) 100 _) i
  · exact (getD_prop (fun v => 0 ≤ v ∧ v ≤ 100) (by norm_num) (hscore _) i).1
  · exact (getD_prop (fun v => 0 ≤ v ∧ v ≤ 100) (by norm_num) (hscore _) i).2
  · exact (getD_prop (fun v => 0 ≤ v ∧ v ≤ 100) (by norm_num) (hscore _) i).1
  · exact (getD_prop (fun v => 0 ≤ v ∧ v ≤ 100) (by norm_num) (hscore _) i).2
  · exact (getD_prop (fun v => 0 ≤ v ∧ v ≤ 100) (by norm_num) (hscore _) i).1
  · exact (getD_prop (fun v => 0 ≤ v ∧ v ≤ 100) (by norm_num) (hscore _) i).2

/-- Decimal digit characters decode back to their value. -/
theorem digit_char_toNat : ∀ d : ℕ, d < 10 → (Nat.digitChar d).toNat - 48 = d := by decide

/-- Decimal digit characters are digits. -/
theorem digit_char_isDigit : ∀ d : ℕ, d < 10 → (Nat.digitChar d).isDigit = true := by decide

/-- The printed digits of a positive number form a nonempty list. -/
theorem nat_chars_aux_ne_nil {fuel n : ℕ} (hn : n ≠ 0) (hf : fuel ≠ 0) :
    nat_chars_aux fuel n ≠ [] := by
  cases fuel with
  | zero => exact absurd rfl hf
  | succ fuel => simp [nat_chars_aux, hn]

/-- Every printed character is a digit. -/
theorem nat_chars_aux_all_digit (fuel : ℕ) : ∀ n : ℕ,
    (nat_chars_aux fuel n).all Char.isDigit = true := by
  induction fuel with
  | zero => intro n; rfl
  | succ fuel ih =>
    intro n
    by_cases hn : n = 0
    · simp [nat_chars_aux, hn]
    · simp only [nat_chars_aux, if_neg hn, List.all_cons, Bool.and_eq_true]
      exact ⟨digit_char_isDigit _ (Nat.mod_lt _ (by norm_num)), ih _⟩

/-- Folding the printed digits most-significant-first recovers the number. -/
theorem nat_chars_aux_decode (fuel : ℕ) : ∀ n : ℕ, n ≤ fuel →
    (nat_chars_aux fuel n).foldr (fun c a => a * 10 + (c.toNat - 48)) 0 = n := by
  induction fuel with
  | zero => intro n hn; interval_cases n; rfl
  | succ fuel ih =>
    intro n hn
    by_cases hn0 : n = 0
    · simp [nat_chars_aux, hn0]
    · have hdiv : n / 10 ≤ fuel := by
        have := Nat.div_lt_self (Nat.pos_of_ne_zero hn0) (by norm_num : 1 < 10)
        omega
      simp only [nat_chars_aux, if_neg hn0, List.foldr_cons, ih _ hdiv,
        digit_char_toNat _ (Nat.mod_lt _ (by norm_num))]
      omega

/-- Printing then parsing a natural number is the identity. -/
theorem chars_nat_nat_chars (n : ℕ) : chars_nat (nat_chars n) = some n := by
  by_cases h : n = 0
  · subst h; decide
  · rw [nat_chars, if_neg h, chars_nat, if_pos, List.foldl_reverse,
      nat_chars_aux_decode n n le_rfl]
    refine ⟨by simp [nat_chars_aux_ne_nil h h], ?_⟩
    rw [List.all_reverse]
    exact nat_chars_aux_all_digit n n

/-- The print of a natural number is nonempty. -/
theorem nat_chars_ne_nil (n : ℕ) : nat_chars n ≠ [] := by
  by_cases h : n = 0
  · simp [nat_chars, h]
  · simp [nat_chars, h, nat_chars_aux_ne_nil h h]

/-- Every character of the print of a natural number is a digit. -/
theorem nat_chars_all_digit (n : ℕ) : ∀ c ∈ nat_chars n, c.isDigit = true := by
  intro c hc
  by_cases h : n = 0
  · rw [nat_chars, if_pos h] at hc
    simp at hc
    subst hc; decide
  · rw [nat_chars, if_neg h, List.mem_reverse] at hc
    exact List.all_eq_true.mp (nat_chars_aux_all_digit n n) c hc

/-- Printing then parsing an integer is the identity. -/
theorem chars_int_int_chars (n : ℤ) : chars_int (int_chars n) = some n := by
  by_cases h : n < 0
  · rw [int_chars, if_pos h, chars_int]
    simp only [List.head?_cons, if_pos rfl, List.tail_cons, chars_nat_nat_chars]
    simp only [Option.map_some', Option.some.injEq]
    rw [← Int.abs_eq_natAbs, abs_of_neg h, neg_neg]
    simp
  · rw [int_chars, if_neg h, chars_int]
    cases hc : nat_chars n.toNat with
    | nil => exact absurd hc (nat_chars_ne_nil _)
    | cons c cs =>
      have hcd : c.isDigit = true := nat_chars_all_digit n.toNat c (by rw [hc]; simp)
      have hne : c ≠ '-' := by
        intro hx
        rw [hx] at hcd
        exact absurd hcd (by decide)
      rw [if_neg (by simp [hne]), ← hc, chars_nat_nat_chars]
      simp only [Option.map_some', Option.some.injEq]
      omega

/-- Printing then parsing via strings is the identity for integers. -/
theorem str_int_int_str (n : ℤ) : str_int (int_str n) = some n :=
  chars_int_int_chars n

/-- No character of the print of an integer is a slash. -/
theorem int_chars_no_slash (n : ℤ) : ∀ c ∈ int_chars n, c ≠ '/' := by
  intro c hc hx
  subst hx
  rw [int_chars] at hc
  by_cases h : n < 0
  · rw [if_pos h] at hc
    rcases List.mem_cons.mp hc with h1 | h1
    · exact absurd h1 (by decide)
    · have := nat_chars_all_digit n.natAbs _ h1
      exact absurd this (by decide)
  · rw [if_neg h] at hc
    have := nat_chars_all_digit n.toNat _ hc
    exact absurd this (by decide)

/-- Printing then parsing a rational is the identity. -/
theorem chars_rat_rat_chars (q : ℚ) : chars_rat (rat_chars q) = some q := by
  have hno : ∀ c ∈ int_chars q.num, (fun c => c != '/') c = true := by
    intro a ha
    simpa using int_chars_no_slash q.num a ha
  rw [chars_rat, rat_chars]
  rw [List.takeWhile_append_of_pos hno, List.dropWhile_append_of_pos hno]
  have h1 : List.takeWhile (fun c => c != '/') ('/' :: nat_chars q.den) = [] := by
    simp [List.takeWhile_cons]
  have h2 : List.dropWhile (fun c => c != '/') ('/' :: nat_chars q.den)
      = '/' :: nat_chars q.den := by
    simp [List.dropWhile_cons]
  rw [h1, h2, List.append_nil]
  simp only [List.head?_cons, if_pos rfl, List.tail_cons,
    chars_int_int_chars, chars_nat_nat_chars]
  rw [Rat.num_div_den q]
  simp

/-- Printing then parsing via strings is the identity for rationals. -/
theorem str_rat_rat_str (q : ℚ) : str_rat (rat_str q) = some q :=
  chars_rat_rat_chars q

/-- A successful `Except` bind factors through a successful first step. -/
theorem except_bind_ok {ε α β : Type} {x : Except ε α} {f : α → Except ε β} {b : β}
    (h : (x >>= f) = Except.ok b) : ∃ a, x = Except.ok a ∧ f a = Except.ok b := by
  cases x with
  | error e => simp [Bind.bind, Except.bind] at h
  | ok a => exact ⟨a, rfl, by simpa [Bind.bind, Except.bind] using h⟩

/-- A successful column access means the column is in the header. -/
theorem getColumn_ok_mem {t : RawCsv} {col : String} {v : List String}
    (h : getColumn t col = Except.ok v) : col ∈ t.header := by
  rw [getColumn] at h
  by_cases hm : col ∈ t.header
  · exact hm
  · rw [if_neg hm] at h
    exact absurd h (by simp)

/-- If the record assembly succeeds, every required column was present. -/
theorem build_records_ok_mem {t : RawCsv} {l : List StudentRecord}
    (h : build_records t = Except.ok l) : ∀ c ∈ required_columns, c ∈ t.header := by
  rw [build_records] at h
  obtain ⟨maths, h1, h⟩ := except_bind_ok h
  obtain ⟨readings, h2, h⟩ := except_bind_ok h
  obtain ⟨writings, h3, h⟩ := except_bind_ok h
  obtain ⟨genders, h4, h⟩ := except_bind_ok h
  obtain ⟨edus, h5, h⟩ := except_bind_ok h
  obtain ⟨preps, h6, h⟩ := except_bind_ok h
  obtain ⟨lunches, h7, h⟩ := except_bind_ok h
  intro c hc
  simp only [required_columns, List.mem_cons, List.not_mem_nil, or_false] at hc
  rcases hc with rfl | rfl | rfl | rfl | rfl | rfl | rfl
  · exact getColumn_ok_mem h4
  · exact getColumn_ok_mem h5
  · exact getColumn_ok_mem h7
  · exact getColumn_ok_mem h6
  · exact getColumn_ok_mem h1
  · exact getColumn_ok_mem h2
  · exact getColumn_ok_mem h3

/-- C4: with the file present, an unparseable file is a fatal
`parserError`, and a parsed file missing any required column makes the run
end in an error — no dataset is produced, so the synthetic fallback of the
absent-file branch is never taken for a present-but-malformed file. -/
theorem load_error_on_malformed (t : RawCsv) (ambient : ℕ) :
    run_script (FileState.present none) ambient = Except.error LoadError.parserError ∧
    (∀ c ∈ required_columns, c ∉ t.header →
      ∃ e, run_script (FileState.present (some t)) ambient = Except.error e) := by
  refine ⟨rfl, ?_⟩
  intro c hc hnc
  cases hrun : build_records t with
  | error e => exact ⟨e, hrun⟩
  | ok l => exact absurd (build_records_ok_mem hrun c hc) hnc

/-- Witness for C4: a parsed table whose header lacks `lunch` (and most
other columns) makes the run fail, and the unparseable case fails. -/
theorem load_error_on_malformed_witness :
    run_script (FileState.present none) 0 = Except.error LoadError.parserError ∧
    ∃ e, run_script (FileState.present (some ⟨["gender"], []⟩)) 0 = Except.error e :=
  ⟨(load_error_on_malformed ⟨["gender"], []⟩ 0).1,
   (load_error_on_malformed ⟨["gender"], []⟩ 0).2 "lunch" (by decide) (by decide)⟩

/-- Parsing one exported row recovers the record with its derived values. -/
theorem parse_row_record_cells (r : StudentRecord) :
    parse_row (record_cells r) = some (derived_row r) := by
  simp [parse_row, record_cells, str_int_int_str, str_rat_rat_str, derived_row]

/-- Parsing the exported data rows recovers all records in order. -/
theorem mapM_parse_row (l : List StudentRecord) :
    (l.map record_cells).mapM parse_row = some (l.map derived_row) := by
  induction l with
  | nil => rfl
  | cons r t ih =>
    rw [List.map_cons, List.mapM_cons, parse_row_record_cells, ih]
    rfl

/-- Parsing the whole exported report recovers all records in order. -/
theorem parse_csv_to_csv (l : List StudentRecord) :
    parse_csv (to_csv l) = some (l.map derived_row) :=
  mapM_parse_row l

/-- C3 counterexample to the claim as stated: the export of a one-record
at-risk extract does not carry the eight projected columns as its header —
line 154 serializes the unprojected dataframe (the projection at line 152
is display-only). -/
theorem at_risk_export_columns_counterexample :
    (to_csv (at_risk [sample_record])).head? ≠ some projected_columns := by
  rw [to_csv, List.head?_cons]
  intro h
  have h2 : export_header = projected_columns := by simpa using h
  exact absurd h2 (by decide)

/-- C3 as amended: the export is the header row (all eleven prepared
columns) followed by one row per at-risk record with no index cell (every
row has exactly the header width), and parsing it back recovers exactly
the at-risk records, with their derived values, in the exported order. -/
theorem at_risk_export_spec (l : List StudentRecord) (g e p : List String) :
    (to_csv (at_risk (filtered_df l g e p))).head? = some export_header ∧
    (to_csv (at_risk (filtered_df l g e p))).length =
      (at_risk (filtered_df l g e p)).length + 1 ∧
    (to_csv (at_risk (filtered_df l g e p))).Forall
      (fun row => row.length = export_header.length) ∧
    parse_csv (to_csv (at_risk (filtered_df l g e p))) =
      some ((at_risk (filtered_df l g e p)).map derived_row) := by
  refine ⟨rfl, by simp [to_csv], ?_, parse_csv_to_csv _⟩
  rw [to_csv, List.forall_cons]
  refine ⟨rfl, ?_⟩
  rw [List.forall_iff_forall_mem]
  intro row hrow
  obtain ⟨r, _, rfl⟩ := List.mem_map.mp hrow
  simp [record_cells, export_header]
